import Mathlib

/-!
Shallow embedding of the repository jordancaraballo/xrasterlib:

* `src/xrasterlib/raster.py` — class `Raster`: chunked raster loading,
  thresholding (`preprocess`), band append (`addindices`), band drop
  (`dropindices`) and export (`toraster`).
* `src/terragpu/ai/deep_learning/datasets/segmentation_dataset.py` —
  class `SegmentationDataset`: tiling dataset generation and the
  training-time read path.

Modelling conventions: numpy/xarray numeric values (pixel values, scales,
offsets, nodata sentinels) are modelled as `Int`; numpy `astype(int16)`
is the wrap-around cast on 2^16.  Python `None` parameters are `Option`.
Stateful methods are modelled as explicit state passing; Python
exceptions (RuntimeError, AssertionError, KeyError, AttributeError,
IndexError) become `Except String` or `Option` results, with the
exception class kept in the message text.  The filesystem visible to the
code is an explicit value: a map from path to raster metadata for
rasterio/xarray reads, and a directory/file listing for the dataset
generator.  External collaborators (rasterio, xarray, numpy, torch,
glob) are modelled by their documented behaviour at the call sites the
source uses.
-/

namespace XRasterLib

/-- One slice of the band axis of an xarray DataArray loaded by
open_rasterio: its band coordinate and its flattened pixel values. -/
structure XBand where
  coord : Nat
  values : List Int
deriving DecidableEq, Repr

/-- The xarray DataArray held in `Raster.data`: the band axis plus the
attrs the source reads — scales, offsets and nodatavals. -/
structure XData where
  bands : List XBand
  scales : List Int
  offsets : List Int
  nodatavals : List Int
deriving DecidableEq, Repr

/-- The populated fields of a `Raster` object (`raster.py` lines 62-85).
`bands` is `Option` because `readraster` stores its `bands` argument
without validating it, so `self.bands` can be `None`. -/
structure Raster where
  data : XData
  bands : Option (List String)
  nodataval : List Int
  chunks_band : Nat
  chunks_x : Nat
  chunks_y : Nat
deriving DecidableEq, Repr

/-- The filesystem seen by `xr.open_rasterio`: path to array contents. -/
abbrev XFS := List (String × XData)

/-- Model of `xr.open_rasterio(filename, chunks=...)`: returns the file
contents, raising a rasterio error when the path cannot be opened.  The
chunk sizes only affect lazy evaluation, not the loaded values. -/
def openRasterio (fs : XFS) (filename : String) : Except String XData :=
  match fs.lookup filename with
  | some d => .ok d
  | none => .error "RasterioIOError: cannot open file"

/-- Model of `Raster.__init__` when a filename is given (`raster.py`
lines 67-85): check `os.path.isfile`, open the raster, require a band
list, and record `nodatavals` from the file attrs. -/
def Raster.fromFile (fs : XFS) (filename : String) (bands : Option (List String))
    (chunks_band : Nat) (chunks_x : Nat) (chunks_y : Nat) : Except String Raster :=
  if (fs.lookup filename).isSome then
    match openRasterio fs filename with
    | .error e => .error e
    | .ok d =>
      match bands with
      | none => .error "RuntimeError: Must specify band names."
      | some bs =>
        .ok { data := d, bands := some bs, nodataval := d.nodatavals,
              chunks_band := chunks_band, chunks_x := chunks_x, chunks_y := chunks_y }
  else .error "RuntimeError: filename does not exist"

/-- Model of `Raster.readraster` (`raster.py` lines 94-111): overwrites
`data_chunks`, `data`, `bands` and `nodataval` on the existing object.
Note: unlike `__init__`, there is no `os.path.isfile` check (the open
itself fails on a missing path) and no check that `bands` is not None. -/
def Raster.readraster (fs : XFS) (r : Raster) (filename : String)
    (bands : Option (List String)) (chunks_band : Nat) (chunks_x : Nat)
    (chunks_y : Nat) : Except String Raster :=
  match openRasterio fs filename with
  | .error e => .error e
  | .ok d =>
    .ok { r with
          data := d, bands := bands, nodataval := d.nodatavals,
          chunks_band := chunks_band, chunks_x := chunks_x, chunks_y := chunks_y }

/-- The operator dictionary `ops` in `Raster.preprocess` (`raster.py`
line 128); an unknown key raises KeyError, modelled as `none`. -/
def ops (op : String) : Option (Int → Int → Bool) :=
  if op = "<" then some (fun a b => a < b)
  else if op = ">" then some (fun a b => b < a)
  else none

/-- Model of `DataArray.where(cond, other=subs)`: keep each value where
the condition holds, replace the rest with `other`; coordinates and
attrs are unchanged. -/
def XData.whereData (d : XData) (cond : Int → Bool) (other : Int) : XData :=
  { d with bands := d.bands.map (fun b =>
      { b with values := b.values.map (fun v => if cond v then v else other) }) }

/-- Model of `Raster.preprocess` (`raster.py` lines 116-129). -/
def Raster.preprocess (r : Raster) (op : String) (boundary : Int) (subs : Int) :
    Except String Raster :=
  match ops op with
  | none => .error "KeyError: operator not supported"
  | some f => .ok { r with data := r.data.whereData (fun v => f v boundary) subs }

/-- The duck-typed index functions passed to `addindices`: they receive
the current `self.data`, the current `self.bands` and the atmospheric
factor, and return the computed band plus its band id.  The factor is a
Python float passed through untouched; it is modelled as `Int`. -/
abbrev IndexFn := XData → List String → Int → XBand × String

/-- The `for indices_function in indices` loop of `Raster.addindices`
(`raster.py` lines 142-149): increment the band counter, compute the new
band from the current data and band list, append the band id, set the
new band coordinate to the counter, and concat the band onto the band
axis (xr.concat keeps the attrs of the first argument). -/
def addindicesLoop (factor : Int) : List IndexFn → XData → List String → Nat →
    XData × List String × Nat
  | [], d, bs, nbands => (d, bs, nbands)
  | f :: rest, d, bs, nbands =>
    addindicesLoop factor rest
      { d with bands := d.bands ++ [{ (f d bs factor).1 with coord := nbands + 1 }] }
      (bs ++ [(f d bs factor).2])
      (nbands + 1)

/-- Model of `Raster.addindices` (`raster.py` lines 131-153): run the
loop starting from `len(self.bands)`, then overwrite the scales and
offsets attrs with the first existing value replicated `nbands` times.
Reading element 0 of an empty scales or offsets list raises IndexError,
and `len(None)` raises TypeError. -/
def Raster.addindices (r : Raster) (indices : List IndexFn) (factor : Int) :
    Except String Raster :=
  match r.bands with
  | none => .error "TypeError: object of type NoneType has no len"
  | some bs0 =>
    match addindicesLoop factor indices r.data bs0 bs0.length with
    | (d1, bs1, nbands) =>
      match d1.scales, d1.offsets with
      | s0 :: _, o0 :: _ =>
        .ok { r with
              data := { d1 with
                        scales := List.replicate nbands s0,
                        offsets := List.replicate nbands o0 },
              bands := some bs1 }
      | _, _ => .error "IndexError: list index out of range"

/-- Model of `DataArray.drop(dim=band, labels=...)`: remove the band
slices whose coordinate is among the labels; a label absent from the
coordinate raises KeyError. -/
def XData.dropBands (d : XData) (labels : List Nat) : Except String XData :=
  if labels.all (fun l => d.bands.any (fun b => b.coord == l)) then
    .ok { d with bands := d.bands.filter (fun b => !(labels.contains b.coord)) }
  else .error "KeyError: label not found in band coordinate"

/-- Model of `Raster.dropindices` (`raster.py` lines 155-168): assert
every requested band name is present, translate names to band-axis
labels via `self.bands.index(...) + 1`, drop those labels, and filter
the band-name list. -/
def Raster.dropindices (r : Raster) (dropi : List String) : Except String Raster :=
  match r.bands with
  | none => .error "TypeError: argument of type NoneType is not iterable"
  | some bs =>
    if dropi.all (fun band => bs.contains band) then
      match r.data.dropBands (dropi.map (fun ind_id => bs.indexOf ind_id + 1)) with
      | .ok d =>
        .ok { r with
              data := d,
              bands := some (bs.filter (fun band => !(dropi.contains band))) }
      | .error e => .error e
    else .error "AssertionError: Specified band not in raster."

/-- The profile metadata of a rasterio dataset: band count, dtype, and a
stand-in field for the georeferencing metadata copied verbatim. -/
structure RProfile where
  count : Nat
  dtype : String
  georef : Int
deriving DecidableEq, Repr

/-- A raster file as seen by `rio.open` in `toraster`: its profile and
its first mask band (`src.read_masks(1)`, 0 = nodata, 255 = valid). -/
structure RFile where
  profile : RProfile
  mask : List Int
deriving DecidableEq, Repr

/-- The filesystem seen by `rio.open`. -/
abbrev RFS := List (String × RFile)

/-- numpy `astype` cast: int16 wraps on 2^16; other dtypes are modelled
as the identity (the values used in the claims fit their dtypes). -/
def castDtype (dtype : String) (v : Int) : Int :=
  if dtype = "int16" then (v + 32768) % 65536 - 32768 else v

/-- Observable outcome of `Raster.toraster`: the caller's prediction
buffer after the call (the masking assignment mutates it in place), and
the file written to `output`. -/
structure ToRasterResult where
  prediction : List Int
  out_path : String
  out_meta : RProfile
  out_data : List Int
deriving DecidableEq, Repr

/-- Model of `Raster.toraster` (`raster.py` lines 211-242): open the
reference raster (failing if it cannot be opened), cast its mask band to
`dtype`, replace zero mask entries by `self.nodataval[0]`, overwrite the
prediction wherever the substituted mask equals the nodata value, force
a single-band `dtype` profile, and write the prediction.  Reading
`self.nodataval[0]` from an empty tuple raises IndexError, and the
boolean-mask assignment requires matching shapes. -/
def Raster.toraster (r : Raster) (rfs : RFS) (rast : String) (prediction : List Int)
    (dtype : String) (output : String) : Except String ToRasterResult :=
  match rfs.lookup rast with
  | none => .error "RasterioIOError: cannot open reference raster"
  | some src =>
    match r.nodataval with
    | [] => .error "IndexError: tuple index out of range"
    | nd :: _ =>
      let nodatavals := (src.mask.map (castDtype dtype)).map
        (fun m => if m = 0 then nd else m)
      if prediction.length = nodatavals.length then
        let prediction := (prediction.zip nodatavals).map
          (fun p => if p.2 = nd then p.2 else p.1)
        .ok { prediction := prediction, out_path := output,
              out_meta := { src.profile with count := 1, dtype := dtype },
              out_data := prediction.map (castDtype dtype) }
      else .error "IndexError: boolean index shape mismatch"

/-- Lexicographic-by-code-point comparison of character lists, the order
Python `sorted` uses on strings. -/
def charListLe : List Char → List Char → Bool
  | [], _ => true
  | _ :: _, [] => false
  | a :: as, b :: bs =>
    if a.toNat < b.toNat then true
    else if b.toNat < a.toNat then false
    else charListLe as bs

/-- String comparison for `pysorted`. -/
def strLe (a : String) (b : String) : Bool := charListLe a.data b.data

/-- One step of insertion sort. -/
def insOne (s : String) : List String → List String
  | [] => [s]
  | t :: ts => if strLe s t then s :: t :: ts else t :: insOne s ts

/-- Model of Python `sorted` on a list of strings: a stable sort by the
lexicographic code-point order. -/
def pysorted (l : List String) : List String := l.foldr insOne []

/-- Model of `pathlib.Path(s).stem`: the final path component without
its last suffix. -/
def stemChars (l : List Char) : List Char :=
  let base := (l.reverse.takeWhile (fun c => c ≠ '/')).reverse
  match base.reverse.dropWhile (fun c => c ≠ '.') with
  | [] => base
  | _ :: rest => if rest = [] then base else rest.reverse

/-- `Path(s).stem` as a string. -/
def pathStem (s : String) : String := String.mk (stemChars s.data)

/-- A numpy array saved to or loaded from a `.npy` file: label tiles are
2-D, image tiles are 3-D. -/
inductive NpArr where
  | a2 (d : List (List Int))
  | a3 (d : List (List (List Int)))
deriving DecidableEq, Repr

/-- A file in the dataset directory tree. -/
structure DFile where
  dir : String
  name : String
  content : NpArr
deriving DecidableEq, Repr

/-- The filesystem seen by the dataset generator: the directories that
exist and the tile files, keyed by directory and file name. -/
structure DFS where
  dirs : List String
  files : List DFile
deriving DecidableEq, Repr

/-- Model of `os.makedirs(d, exist_ok=True)`. -/
def DFS.makedirs (fs : DFS) (d : String) : DFS :=
  if fs.dirs.contains d then fs else { fs with dirs := fs.dirs ++ [d] }

/-- Model of `xp.save(os.path.join(dir, name), content)`: numpy save
overwrites an existing file of the same name. -/
def DFS.save (fs : DFS) (dir : String) (name : String) (c : NpArr) : DFS :=
  if fs.files.any (fun f => f.dir == dir && f.name == name) then
    { fs with files := fs.files.map (fun f =>
        if f.dir == dir && f.name == name then { f with content := c } else f) }
  else { fs with files := fs.files ++ [{ dir := dir, name := name, content := c }] }

/-- Model of `os.listdir(dir)`: the names of the files in `dir` (the
listing order is unspecified by the OS; the model lists in insertion
order). -/
def DFS.listdir (fs : DFS) (dir : String) : List String :=
  (fs.files.filter (fun f => f.dir == dir)).map DFile.name

/-- Look a file up by directory and name. -/
def DFS.lookupFile (fs : DFS) (dir : String) (name : String) : Option NpArr :=
  (fs.files.find? (fun f => f.dir == dir && f.name == name)).map DFile.content

/-- Model of `xp.load(path)` for a full path `dir ++ / ++ name`. -/
def DFS.loadPath (fs : DFS) (path : String) : Option NpArr :=
  (fs.files.find? (fun f => f.dir ++ "/" ++ f.name == path)).map DFile.content

/-- numpy int16 cast with wrap-around. -/
def cast16 (v : Int) : Int := (v + 32768) % 65536 - 32768

/-- `np.moveaxis(a, 0, -1)` on a (band, y, x) nested list: produce the
(y, x, band) array. -/
def moveaxis3 (t : List (List (List Int))) : List (List (List Int)) :=
  t.transpose.map List.transpose

/-- `a.transpose((2, 0, 1))` on a (y, x, band) nested list: produce the
(band, y, x) array, the channel-first layout used by `open_image`. -/
def transpose201 (t : List (List (List Int))) : List (List (List Int)) :=
  (t.map List.transpose).transpose

/-- Crop a 2-D array at a top-left offset to a square tile. -/
def crop2 (a : List (List Int)) (off : Nat × Nat) (ts : Nat) : List (List Int) :=
  ((a.drop off.1).take ts).map (fun row => (row.drop off.2).take ts)

/-- Crop the spatial axes of a (y, x, band) array at a top-left offset. -/
def crop3 (a : List (List (List Int))) (off : Nat × Nat) (ts : Nat) :
    List (List (List Int)) :=
  ((a.drop off.1).take ts).map (fun row => (row.drop off.2).take ts)

/-- Modelled from the spec: `terragpu.ai.preprocessing.gen_random_tiles`
is code of this repository that is not under src/ (only its caller
`gen_dataset` is).  The spec says it extracts up to `max_patches` random
tiles of `tile_size x tile_size` by picking random top-left offsets
within valid bounds, with image and label tiles cut from the same pixel
window, and that `max_patches=5` over one image/label pair yields
exactly 5 tile pairs.  The randomness is the externally supplied `offs`
stream; `max_patches` is modelled in its absolute-count form. -/
def gen_random_tiles (offs : Nat → Nat × Nat) (image : List (List (List Int)))
    (label : List (List Int)) (tile_size : Nat) (max_patches : Nat) :
    List (List (List (List Int))) × List (List (List Int)) :=
  ((List.range max_patches).map (fun i => crop3 image (offs i) tile_size),
   (List.range max_patches).map (fun i => crop2 label (offs i) tile_size))

/-- The external collaborators `gen_dataset` and the read path call
into: `glob.glob`, the rioxarray scene loads (the label scene is taken
after the external numpy squeeze of a singleton band axis),
`terragpu.ai.preprocessing.modify_bands` (band reorder/selection, an
external collaborator per the spec), the randomness source feeding
`gen_random_tiles`, and `terragpu.ai.preprocessing.standardize_local`. -/
structure Env where
  glob : String → List String
  load_image : String → List (List (List Int))
  load_label : String → List (List Int)
  modify_bands : List (List (List Int)) → List String → List String →
    List (List (List Int))
  rand : String → Nat → Nat × Nat
  standardize_local : List (List (List Int)) → List (List (List Int))

/-- The constructor parameters of `SegmentationDataset`
(`segmentation_dataset.py` lines 29-44), with their Python defaults
noted where a claim mentions them.  `test_size` is carried but unused by
the logic shown; `max_patches` is modelled in its count form. -/
structure SegParams where
  input_bands : List String
  output_bands : List String
  tile_size : Nat
  max_patches : Nat
  dataset_dir : Option String
  generate_dataset : Bool
  images_regex : Option String
  labels_regex : Option String
  transform : Bool
  test_size : Int
  invert : Bool
  normalize : Bool
  standardize : Bool
deriving DecidableEq, Repr

/-- The attributes of a constructed `SegmentationDataset`.  The
`images_regex`/`labels_regex` attributes are only assigned when
`generate_dataset=True`; the model keeps them as plain strings defaulted
to the empty string otherwise.  `files` is the attribute read by
`open_image`/`open_mask`; `__init__` never assigns it (it assigns
`data_filenames` instead), so it is `none` in every constructed
object. -/
structure SegmentationDataset where
  input_bands : List String
  output_bands : List String
  tile_size : Nat
  max_patches : Nat
  test_size : Int
  invert : Bool
  normalize : Bool
  standardize : Bool
  dataset_dir : String
  images_dir : String
  labels_dir : String
  generate_dataset : Bool
  images_regex : String
  labels_regex : String
  data_filenames : List (String × String)
  files : Option (List (String × String))
  transform : Bool
deriving DecidableEq, Repr

/-- Model of `SegmentationDataset.gen_dataset` (`segmentation_dataset.py`
lines 141-184): glob both patterns, sort each result, pair by position
(`zip`), and for each pair load the scenes, reorder bands, move the band
axis last and cast to int16, tile, and save each tile pair as
`{stem}_{id}.npy` under the images and labels directories. -/
def SegmentationDataset.gen_dataset (env : Env) (s : SegmentationDataset)
    (fs : DFS) : DFS :=
  ((pysorted (env.glob s.images_regex)).zip
    (pysorted (env.glob s.labels_regex))).foldl (fun fs1 pr =>
      let filename := pathStem pr.1
      let image := (moveaxis3 (env.modify_bands (env.load_image pr.1)
        s.input_bands s.output_bands)).map (fun row => row.map
          (fun px => px.map cast16))
      let label := env.load_label pr.2
      let tiles := gen_random_tiles (env.rand pr.1) image label
        s.tile_size s.max_patches
      (tiles.1.zip tiles.2).enum.foldl (fun fs2 t =>
        (fs2.save s.images_dir (filename ++ "_" ++ toString t.1 ++ ".npy")
          (.a3 t.2.1)).save s.labels_dir
            (filename ++ "_" ++ toString t.1 ++ ".npy") (.a2 t.2.2)) fs1) fs

/-- The body of the `for image, label in zip(images_list, labels_list)`
loop of `gen_dataset`, processing one positional image/label pair. -/
def genScene (env : Env) (s : SegmentationDataset) (fs1 : DFS)
    (pr : String × String) : DFS :=
  let filename := pathStem pr.1
  let image := (moveaxis3 (env.modify_bands (env.load_image pr.1)
    s.input_bands s.output_bands)).map (fun row => row.map
      (fun px => px.map cast16))
  let label := env.load_label pr.2
  let tiles := gen_random_tiles (env.rand pr.1) image label
    s.tile_size s.max_patches
  (tiles.1.zip tiles.2).enum.foldl (fun fs2 t =>
    (fs2.save s.images_dir (filename ++ "_" ++ toString t.1 ++ ".npy")
      (.a3 t.2.1)).save s.labels_dir
        (filename ++ "_" ++ toString t.1 ++ ".npy") (.a2 t.2.2)) fs1

/-- Model of `SegmentationDataset.get_filenames` (`segmentation_dataset.py`
lines 113-121): one image/label record per file listed in the images
directory, pairing by identical file name. -/
def SegmentationDataset.get_filenames (s : SegmentationDataset) (fs : DFS) :
    List (String × String) :=
  (fs.listdir s.images_dir).map (fun i =>
    (s.images_dir ++ "/" ++ i, s.labels_dir ++ "/" ++ i))

/-- The tail of `SegmentationDataset.__init__` after the optional
dataset generation (`segmentation_dataset.py` lines 89-94): assert the
images directory is non-empty, then record the manifest. -/
def SegmentationDataset.finishInit (s : SegmentationDataset) (fs : DFS) :
    Except (String × DFS) (SegmentationDataset × DFS) :=
  if (fs.listdir s.images_dir).length > 0 then
    .ok ({ s with data_filenames := s.get_filenames fs }, fs)
  else .error ("AssertionError: images_dir is empty. Make sure generate_dataset=True.", fs)

/-- Model of `SegmentationDataset.__init__` (`segmentation_dataset.py`
lines 29-94).  A failed assertion carries the filesystem as it stands at
the failure: the `images/` and `labels/` directories are created before
the `generate_dataset` asserts run. -/
def SegmentationDataset.init (env : Env) (p : SegParams) (fs : DFS) :
    Except (String × DFS) (SegmentationDataset × DFS) :=
  match p.dataset_dir with
  | none => .error ("AssertionError: dataset_dir should be defined.", fs)
  | some ddir =>
    let images_dir := ddir ++ "/images"
    let labels_dir := ddir ++ "/labels"
    let fs1 := (fs.makedirs images_dir).makedirs labels_dir
    let s0 : SegmentationDataset :=
      { input_bands := p.input_bands, output_bands := p.output_bands,
        tile_size := p.tile_size, max_patches := p.max_patches,
        test_size := p.test_size, invert := p.invert,
        normalize := p.normalize, standardize := p.standardize,
        dataset_dir := ddir, images_dir := images_dir,
        labels_dir := labels_dir, generate_dataset := p.generate_dataset,
        images_regex := "", labels_regex := "", data_filenames := [],
        files := none, transform := p.transform }
    if p.generate_dataset then
      match p.images_regex with
      | none =>
        .error ("AssertionError: images_regex should be defined with generate_dataset=True.", fs1)
      | some ireg =>
        match p.labels_regex with
        | none =>
          .error ("AssertionError: labels_regex should be defined with generate_dataset=True.", fs1)
        | some lreg =>
          let s1 := { s0 with images_regex := ireg, labels_regex := lreg }
          s1.finishInit (s1.gen_dataset env fs1)
    else s0.finishInit fs1

/-- Model of `SegmentationDataset.__len__`. -/
def SegmentationDataset.len (s : SegmentationDataset) : Nat :=
  s.data_filenames.length

/-- A torch tensor as produced by `from_dlpack(...).float()` or
`.long()`: the numeric kind and the array contents. -/
structure Tensor where
  kind : String
  arr : NpArr
deriving DecidableEq, Repr

/-- `xp.iinfo(np.int16).max`, the dtype of the saved tiles. -/
def iinfo_int16_max : Int := 32767

/-- Model of `SegmentationDataset.open_image` (`segmentation_dataset.py`
lines 123-131).  The first step reads `self.files[idx]`; `files` is
never assigned by `__init__`, so on every constructed object this
raises AttributeError before any tile is loaded.  The remainder models
the intended pipeline: load, optional channel-first transpose, optional
normalization by the maximum int16 value (a float division in Python,
modelled on `Int`), optional standardization, conversion to a float
tensor. -/
def SegmentationDataset.open_image (env : Env) (fs : DFS)
    (s : SegmentationDataset) (idx : Nat) : Except String Tensor :=
  match s.files with
  | none => .error "AttributeError: SegmentationDataset object has no attribute files"
  | some files =>
    match files.get? idx with
    | none => .error "IndexError: list index out of range"
    | some rec =>
      match fs.loadPath rec.1 with
      | none => .error "FileNotFoundError: no such file"
      | some (.a2 _) => .error "ValueError: axes do not match array"
      | some (.a3 img) =>
        let img := if s.invert then transpose201 img else img
        let img := if s.normalize then
          img.map (fun row => row.map (fun px =>
            px.map (fun v => v / iinfo_int16_max))) else img
        let img := if s.standardize then env.standardize_local img else img
        .ok { kind := "float", arr := .a3 img }

/-- Model of `SegmentationDataset.open_mask` (`segmentation_dataset.py`
lines 133-136); it reads the unassigned `self.files` attribute too. -/
def SegmentationDataset.open_mask (fs : DFS) (s : SegmentationDataset)
    (idx : Nat) (add_dims : Bool) : Except String Tensor :=
  match s.files with
  | none => .error "AttributeError: SegmentationDataset object has no attribute files"
  | some files =>
    match files.get? idx with
    | none => .error "IndexError: list index out of range"
    | some rec =>
      match fs.loadPath rec.2 with
      | none => .error "FileNotFoundError: no such file"
      | some m =>
        let m := if add_dims then
          match m with
          | .a2 d => .a3 [d]
          | .a3 d => NpArr.a3 d
          else m
        .ok { kind := "long", arr := m }

/-- Model of `SegmentationDataset.__getitem__` (`segmentation_dataset.py`
lines 106-111): load image then mask; `self.transform` is a bool, so
the `self.transform(x, y)` call on a truthy value raises TypeError. -/
def SegmentationDataset.getitem (env : Env) (fs : DFS)
    (s : SegmentationDataset) (idx : Nat) : Except String (Tensor × Tensor) :=
  match s.open_image env fs idx with
  | .error e => .error e
  | .ok x =>
    match s.open_mask fs idx false with
    | .error e => .error e
    | .ok y => if s.transform then .error "TypeError: bool object is not callable"
               else .ok (x, y)

/-- The image array exactly as `gen_dataset` prepares it for tiling:
bands modified, band axis moved last, cast to int16. -/
def processedImage (env : Env) (s : SegmentationDataset) (path : String) :
    List (List (List Int)) :=
  (moveaxis3 (env.modify_bands (env.load_image path) s.input_bands
    s.output_bands)).map (fun row => row.map (fun px => px.map cast16))

/-- The tile pairs `gen_dataset` produces for one image/label scene pair. -/
def tilePairs (env : Env) (s : SegmentationDataset) (img : String) (lbl : String) :
    List (List (List (List Int)) × List (List Int)) :=
  (gen_random_tiles (env.rand img) (processedImage env s img)
    (env.load_label lbl) s.tile_size s.max_patches).1.zip
  (gen_random_tiles (env.rand img) (processedImage env s img)
    (env.load_label lbl) s.tile_size s.max_patches).2

/-- Concrete raster with one band holding [-1, 0, 1, 2], to exercise
`preprocess`. -/
def rC4 : Raster :=
  { data := { bands := [{ coord := 1, values := [-1, 0, 1, 2] }],
              scales := [1], offsets := [0], nodatavals := [-9999] },
    bands := some ["gray"], nodataval := [-9999],
    chunks_band := 1, chunks_x := 2048, chunks_y := 2048 }

/-- Concrete raster with one band, to exercise `addindices`. -/
def rC1 : Raster :=
  { data := { bands := [{ coord := 1, values := [3, 4] }],
              scales := [2], offsets := [5], nodatavals := [-9999] },
    bands := some ["red"], nodataval := [-9999],
    chunks_band := 1, chunks_x := 2048, chunks_y := 2048 }

/-- A concrete index function returning a fixed band with id ndvi. -/
def fC1 : IndexFn := fun _ _ _ => ({ coord := 0, values := [7, 8] }, "ndvi")

/-- Concrete two-band raster, to exercise `dropindices`. -/
def rC5 : Raster :=
  { data := { bands := [{ coord := 1, values := [1] },
                        { coord := 2, values := [2] }],
              scales := [1, 1], offsets := [0, 0], nodatavals := [-9999] },
    bands := some ["red", "green"], nodataval := [-9999],
    chunks_band := 1, chunks_x := 2048, chunks_y := 2048 }

/-- Concrete raster whose configured nodata value is 5, to exercise
`toraster` against a reference mask that also contains the value 5. -/
def rC7 : Raster :=
  { data := { bands := [{ coord := 1, values := [1, 2] }],
              scales := [1], offsets := [0], nodatavals := [5] },
    bands := some ["mask"], nodataval := [5],
    chunks_band := 1, chunks_x := 2048, chunks_y := 2048 }

/-- Reference raster file whose mask band is [0, 5]: a nodata pixel and
a valid pixel whose mask value happens to equal the nodata value 5. -/
def rfsC7 : RFS :=
  [("ref.tif", { profile := { count := 3, dtype := "uint8", georef := 17 },
                 mask := [0, 5] })]

/-- Concrete raster with nodata value 5, to exercise the in-place
mutation of `toraster` on a prediction that already holds 5. -/
def rC10 : Raster :=
  { data := { bands := [{ coord := 1, values := [5] }],
              scales := [1], offsets := [0], nodatavals := [5] },
    bands := some ["mask"], nodataval := [5],
    chunks_band := 1, chunks_x := 2048, chunks_y := 2048 }

/-- Reference raster file whose mask band is [0]. -/
def rfsC10 : RFS :=
  [("ref.tif", { profile := { count := 1, dtype := "uint8", georef := 4 },
                 mask := [0] })]

/-- On-disk raster contents for the load-path claims. -/
def xdC8 : XData :=
  { bands := [{ coord := 1, values := [0] }],
    scales := [1], offsets := [0], nodatavals := [-10000] }

/-- Filesystem with one raster file, for `fromFile`/`readraster`. -/
def xfsC8 : XFS := [("f.tif", xdC8)]

/-- An existing raster object on which `readraster` is invoked. -/
def rC8 : Raster :=
  { data := { bands := [], scales := [], offsets := [], nodatavals := [] },
    bands := some [], nodataval := [],
    chunks_band := 1, chunks_x := 2048, chunks_y := 2048 }

/-- A trivial environment for runs that never generate tiles. -/
def envD : Env :=
  { glob := fun _ => [], load_image := fun _ => [], load_label := fun _ => [],
    modify_bands := fun i _ _ => i, rand := fun _ _ => (0, 0),
    standardize_local := fun i => i }

/-- Constructor parameters with `dataset_dir` set and no generation; the
remaining fields keep their Python defaults. -/
def pC2 : SegParams :=
  { input_bands := ["CB", "B", "G", "Y", "R", "RE", "N1", "N2"],
    output_bands := ["B", "G", "R"], tile_size := 256, max_patches := 100,
    dataset_dir := some "d", generate_dataset := false, images_regex := none,
    labels_regex := none, transform := false, test_size := 0, invert := true,
    normalize := false, standardize := false }

/-- A filesystem holding one pre-generated tile pair, so that
construction with `generate_dataset=False` succeeds. -/
def fsC2 : DFS :=
  { dirs := ["d/images", "d/labels"],
    files := [{ dir := "d/images", name := "t_0.npy", content := .a3 [[[1]]] },
              { dir := "d/labels", name := "t_0.npy", content := .a2 [[1]] }] }

/-- Parameters asking for generation but with `images_regex` unset. -/
def pC6 : SegParams := { pC2 with generate_dataset := true }

/-- An empty filesystem: no directories, no files. -/
def fsC6 : DFS := { dirs := [], files := [] }

/-- Environment whose two glob results disagree: the images pattern
matches only scene x2, the labels pattern matches scenes x1 and x2, and
the two label scenes have distinguishable contents. -/
def envC3 : Env :=
  { glob := fun p => if p = "i" then ["i/x2.tif"] else ["l/x1.tif", "l/x2.tif"],
    load_image := fun _ => [[[1]]],
    load_label := fun p => if p = "l/x1.tif" then [[7]] else [[8]],
    modify_bands := fun i _ _ => i, rand := fun _ _ => (0, 0),
    standardize_local := fun i => i }

/-- Dataset state mid-construction, regexes assigned, 1x1 tiles, one
patch per scene. -/
def sC3 : SegmentationDataset :=
  { input_bands := ["B"], output_bands := ["B"], tile_size := 1,
    max_patches := 1, test_size := 0, invert := true, normalize := false,
    standardize := false, dataset_dir := "d", images_dir := "d/images",
    labels_dir := "d/labels", generate_dataset := true, images_regex := "i",
    labels_regex := "l", data_filenames := [], files := none,
    transform := false }

/-- Fresh dataset directories with no tile files yet. -/
def fsC3 : DFS := { dirs := ["d/images", "d/labels"], files := [] }

/-- Environment with exactly one image scene and one label scene. -/
def envC9 : Env :=
  { glob := fun p => if p = "i" then ["i/x.tif"] else ["l/x.tif"],
    load_image := fun _ => [[[1]]], load_label := fun _ => [[2]],
    modify_bands := fun i _ _ => i, rand := fun _ _ => (0, 0),
    standardize_local := fun i => i }

/-- Dataset state requesting five patches per scene. -/
def sC9 : SegmentationDataset := { sC3 with max_patches := 5 }

/-- Fresh dataset directories for the five-patch run. -/
def fsC9 : DFS := { dirs := ["d/images", "d/labels"], files := [] }

/-- Claim C4: for op among < and >, `preprocess` keeps every element
satisfying the comparison against `boundary` and replaces every failing
element with `subs`, replacing `self.data` on the object and touching
nothing else; the band names, coordinates and attrs are unchanged.  The
witness instantiates the particular case given in the claim: op >,
boundary 0, subs 0 on values [-1, 0, 1, 2] yields [0, 0, 1, 2]. -/
theorem c4_preprocess_spec (r : Raster) (op : String) (boundary : Int)
    (subs : Int) (h : op = "<" ∨ op = ">") :
    r.preprocess op boundary subs = .ok { r with
      data := { r.data with bands := r.data.bands.map (fun b =>
        { b with values := b.values.map (fun v =>
          if (if op = "<" then decide (v < boundary)
              else decide (boundary < v)) then v else subs) }) } } := by
  rcases h with h | h <;> subst h <;> rfl

/-- Witness for C4: the hypothesis holds at op >, and on the concrete
raster the band values become [0, 0, 1, 2]. -/
theorem c4_preprocess_spec_witness :
    (((">" : String) = "<" ∨ (">" : String) = ">") ∧
      rC4.preprocess ">" 0 0 = .ok { rC4 with
        data := { rC4.data with
                  bands := [{ coord := 1, values := [0, 0, 1, 2] }] } }) :=
  ⟨Or.inr rfl, by
    have h := c4_preprocess_spec rC4 ">" 0 0 (Or.inr rfl)
    exact h⟩

/-- Unfolded behaviour of the addindices loop: one band appended per
index function with consecutive coordinates continuing the counter, one
band id appended per function, scales and offsets untouched. -/
theorem addindicesLoop_spec (factor : Int) (fns : List IndexFn) :
    ∀ (d : XData) (bs : List String) (nbands : Nat),
    ∃ (ids : List String) (nbd : List XBand),
      addindicesLoop factor fns d bs nbands =
        ({ d with bands := d.bands ++ nbd }, bs ++ ids, nbands + fns.length) ∧
      ids.length = fns.length ∧ nbd.length = fns.length ∧
      ∀ j (h : j < nbd.length), (nbd.get ⟨j, h⟩).coord = nbands + j + 1 := by
  induction fns with
  | nil =>
    intro d bs nbands
    refine ⟨[], [], ?_, rfl, rfl, ?_⟩
    · simp [addindicesLoop]
    · intro j h
      exact absurd h (by simp)
  | cons f rest ih =>
    intro d bs nbands
    obtain ⟨ids, nbd, heq, hidl, hnbl, hco⟩ :=
      ih { d with bands :=
             d.bands ++ [{ (f d bs factor).1 with coord := nbands + 1 }] }
        (bs ++ [(f d bs factor).2]) (nbands + 1)
    refine ⟨(f d bs factor).2 :: ids,
      { (f d bs factor).1 with coord := nbands + 1 } :: nbd, ?_, ?_, ?_, ?_⟩
    · rw [addindicesLoop, heq]
      refine Prod.ext ?_ (Prod.ext ?_ ?_)
      · show ({ d with bands :=
            (d.bands ++ [{ (f d bs factor).1 with coord := nbands + 1 }]) ++ nbd }
            : XData) = _
        rw [List.append_assoc]
        rfl
      · show (bs ++ [(f d bs factor).2]) ++ ids = _
        rw [List.append_assoc]
        rfl
      · show nbands + 1 + rest.length = nbands + (rest.length + 1)
        omega
    · simp [hidl]
    · simp [hnbl]
    · intro j h
      cases j with
      | zero => rfl
      | succ j =>
        have h2 := hco j (Nat.lt_of_succ_lt_succ h)
        show (nbd.get ⟨j, _⟩).coord = nbands + (j + 1) + 1
        omega

/-- Claim C1: on a well-formed raster with a non-empty band axis,
`addindices` appends one band per index function with the next
sequential band coordinates, appends the returned band ids so that the
band-name list and the band axis have equal sizes after the call, and
replaces the scales and offsets attrs by the first existing value
replicated to the new band count. -/
theorem c1_addindices_spec (r : Raster) (bs0 : List String)
    (fns : List IndexFn) (factor : Int) (hb : r.bands = some bs0)
    (hlen : bs0.length = r.data.bands.length)
    (hsc : r.data.scales.length = r.data.bands.length)
    (hof : r.data.offsets.length = r.data.bands.length)
    (hne : r.data.bands ≠ []) :
    ∃ (ids : List String) (nbd : List XBand) (s0 o0 : Int),
      r.data.scales.head? = some s0 ∧ r.data.offsets.head? = some o0 ∧
      r.addindices fns factor = .ok { r with
        bands := some (bs0 ++ ids),
        data := { r.data with
          bands := r.data.bands ++ nbd,
          scales := List.replicate (bs0.length + fns.length) s0,
          offsets := List.replicate (bs0.length + fns.length) o0 } } ∧
      ids.length = fns.length ∧ nbd.length = fns.length ∧
      (∀ j (h : j < nbd.length), (nbd.get ⟨j, h⟩).coord = bs0.length + j + 1) ∧
      (bs0 ++ ids).length = (r.data.bands ++ nbd).length := by
  obtain ⟨ids, nbd, heq, hidl, hnbl, hco⟩ :=
    addindicesLoop_spec factor fns r.data bs0 bs0.length
  have hbne : 0 < r.data.bands.length := by
    cases hcb : r.data.bands with
    | nil => exact absurd hcb hne
    | cons a t => simp
  obtain ⟨s0, stl, hs⟩ : ∃ s0 stl, r.data.scales = s0 :: stl := by
    cases hsq : r.data.scales with
    | nil => rw [hsq] at hsc; simp at hsc; omega
    | cons a t => exact ⟨a, t, rfl⟩
  obtain ⟨o0, otl, ho⟩ : ∃ o0 otl, r.data.offsets = o0 :: otl := by
    cases hoq : r.data.offsets with
    | nil => rw [hoq] at hof; simp at hof; omega
    | cons a t => exact ⟨a, t, rfl⟩
  refine ⟨ids, nbd, s0, o0, by rw [hs]; rfl, by rw [ho]; rfl, ?_, hidl, hnbl,
    ?_, ?_⟩
  · simp only [Raster.addindices, hb, heq]
    rw [show ({ r.data with bands := r.data.bands ++ nbd } : XData).scales
          = s0 :: stl from hs,
        show ({ r.data with bands := r.data.bands ++ nbd } : XData).offsets
          = o0 :: otl from ho]
  · intro j h
    exact hco j h
  · simp [hidl, hnbl, hlen]

/-- Witness for C1: the hypotheses hold at the concrete one-band raster
and the single index function, and the conclusion follows from the
theorem applied there. -/
theorem c1_addindices_spec_witness :
    (rC1.bands = some ["red"] ∧
     (["red"] : List String).length = rC1.data.bands.length ∧
     rC1.data.scales.length = rC1.data.bands.length ∧
     rC1.data.offsets.length = rC1.data.bands.length ∧
     rC1.data.bands ≠ []) ∧
    (∃ (ids : List String) (nbd : List XBand) (s0 o0 : Int),
      rC1.data.scales.head? = some s0 ∧ rC1.data.offsets.head? = some o0 ∧
      rC1.addindices [fC1] 1 = .ok { rC1 with
        bands := some (["red"] ++ ids),
        data := { rC1.data with
          bands := rC1.data.bands ++ nbd,
          scales := List.replicate ((["red"] : List String).length + 1) s0,
          offsets := List.replicate ((["red"] : List String).length + 1) o0 } } ∧
      ids.length = 1 ∧ nbd.length = 1 ∧
      (∀ j (h : j < nbd.length),
        (nbd.get ⟨j, h⟩).coord = (["red"] : List String).length + j + 1) ∧
      (["red"] ++ ids).length = (rC1.data.bands ++ nbd).length) :=
  ⟨⟨rfl, rfl, rfl, rfl, by decide⟩,
   c1_addindices_spec rC1 ["red"] [fC1] 1 rfl rfl rfl rfl (by decide)⟩

/-- For equal-length lists and pointwise-matching predicates, filtering
the first list equals filtering the zip on the second component and
projecting back to the first. -/
theorem filter_eq_zip_filter {α β : Type} (P : α → Bool) (Q : β → Bool) :
    ∀ (xs : List α) (ys : List β), xs.length = ys.length →
    (∀ i (h1 : i < xs.length) (h2 : i < ys.length),
      P (xs.get ⟨i, h1⟩) = Q (ys.get ⟨i, h2⟩)) →
    xs.filter P = ((xs.zip ys).filter (fun p => Q p.2)).map Prod.fst := by
  intro xs
  induction xs with
  | nil =>
    intro ys _ _
    simp
  | cons x xs ih =>
    intro ys hl hp
    cases ys with
    | nil => simp at hl
    | cons y ys =>
      have h0 : P x = Q y := hp 0 (by simp) (by simp)
      have ihh := ih ys (by simpa using hl) (fun i h1 h2 =>
        hp (i + 1) (by simpa using Nat.succ_lt_succ h1)
          (by simpa using Nat.succ_lt_succ h2))
      simp only [List.zip_cons_cons, List.filter_cons]
      rw [← h0]
      cases hP : P x <;> simp [ihh]

/-- Claim C5: on a well-formed raster (band names in bijection with the
band axis, coordinates 1..n, no duplicate names), `dropindices` fails
with the assertion exactly when some requested name is absent; when all
are present it removes exactly the requested bands from the name list
and from the band axis, and dropping every band empties both. -/
theorem c5_dropindices_spec (r : Raster) (bs : List String)
    (dropi : List String) (hb : r.bands = some bs)
    (hlen : bs.length = r.data.bands.length)
    (hco : ∀ i (h : i < r.data.bands.length),
      (r.data.bands.get ⟨i, h⟩).coord = i + 1)
    (hnd : bs.Nodup) :
    (r.dropindices dropi = .error "AssertionError: Specified band not in raster."
       ↔ ∃ b ∈ dropi, b ∉ bs) ∧
    ((∀ b ∈ dropi, b ∈ bs) →
      r.dropindices dropi = .ok { r with
        bands := some (bs.filter (fun band => !(dropi.contains band))),
        data := { r.data with bands :=
          ((r.data.bands.zip bs).filter
            (fun p => !(dropi.contains p.2))).map Prod.fst } }) ∧
    ((∀ b ∈ dropi, b ∈ bs) → (∀ b ∈ bs, b ∈ dropi) →
      ∃ r2, r.dropindices dropi = .ok r2 ∧ r2.bands = some [] ∧
        r2.data.bands = []) := by
  have hsucc : (∀ b ∈ dropi, b ∈ bs) →
      r.dropindices dropi = .ok { r with
        bands := some (bs.filter (fun band => !(dropi.contains band))),
        data := { r.data with bands :=
          ((r.data.bands.zip bs).filter
            (fun p => !(dropi.contains p.2))).map Prod.fst } } := by
    intro hall
    have hcnd : dropi.all (fun band => bs.contains band) = true := by
      simp only [List.all_eq_true]
      intro x hx
      simpa using hall x hx
    have hdb : (dropi.map (fun ind_id => bs.indexOf ind_id + 1)).all
        (fun l => r.data.bands.any (fun b => b.coord == l)) = true := by
      simp only [List.all_eq_true, List.mem_map]
      rintro l ⟨id, hid, rfl⟩
      simp only [List.any_eq_true]
      have hidx : bs.indexOf id < bs.length :=
        List.indexOf_lt_length.2 (hall id hid)
      have hidx2 : bs.indexOf id < r.data.bands.length := by omega
      refine ⟨r.data.bands.get ⟨bs.indexOf id, hidx2⟩, List.get_mem _ _ _, ?_⟩
      have hcg := hco (bs.indexOf id) hidx2
      simp only [List.get_eq_getElem] at hcg
      simp [hcg]
    have hpoint : ∀ i (h1 : i < r.data.bands.length) (h2 : i < bs.length),
        (fun b => !((dropi.map (fun ind_id => bs.indexOf ind_id + 1)).contains
          b.coord)) (r.data.bands.get ⟨i, h1⟩)
          = (fun s => !(dropi.contains s)) (bs.get ⟨i, h2⟩) := by
      intro i h1 h2
      have hcoe : (r.data.bands[i]).coord = i + 1 := by
        have hx := hco i h1
        simpa [List.get_eq_getElem] using hx
      simp only [List.get_eq_getElem]
      by_cases hm : bs[i] ∈ dropi
      · have hL : (i + 1) ∈ dropi.map (fun ind_id => bs.indexOf ind_id + 1) := by
          refine List.mem_map.2 ⟨bs[i], hm, ?_⟩
          rw [List.indexOf_getElem hnd i h2]
        simp [hcoe, hL, hm]
      · have hL : (i + 1) ∉ dropi.map (fun ind_id => bs.indexOf ind_id + 1) := by
          intro hmem
          obtain ⟨id, hid, hmapeq⟩ := List.mem_map.1 hmem
          have hieq : bs.indexOf id = i := by omega
          have hidx : bs.indexOf id < bs.length :=
            List.indexOf_lt_length.2 (hall id hid)
          have h5 : bs[bs.indexOf id]? = some id := by
            rw [List.getElem?_eq_getElem hidx, List.getElem_indexOf hidx]
          rw [hieq, List.getElem?_eq_getElem h2] at h5
          injection h5 with h7
          apply hm
          rw [h7]
          exact hid
        simp [hcoe, hL, hm]
    have hfilter : List.filter
        (fun b => !((dropi.map (fun ind_id => bs.indexOf ind_id + 1)).contains
          b.coord)) r.data.bands
        = ((r.data.bands.zip bs).filter
            (fun p => !(dropi.contains p.2))).map Prod.fst := by
      exact filter_eq_zip_filter
        (fun b => !((dropi.map (fun ind_id => bs.indexOf ind_id + 1)).contains
          b.coord))
        (fun s => !(dropi.contains s)) r.data.bands bs hlen.symm hpoint
    simp only [Raster.dropindices, hb]
    rw [if_pos hcnd]
    simp only [XData.dropBands]
    rw [if_pos hdb, hfilter]
  refine ⟨⟨?_, ?_⟩, hsucc, ?_⟩
  · intro herr
    by_contra hno
    push_neg at hno
    rw [hsucc hno] at herr
    simp at herr
  · rintro ⟨b, hbmem, hbnot⟩
    have hcf2 : ¬(dropi.all (fun band => bs.contains band) = true) := by
      simp only [List.all_eq_true]
      intro hforall
      exact hbnot (by simpa using hforall b hbmem)
    simp only [Raster.dropindices, hb]
    rw [if_neg hcf2]
  · intro hall hallrev
    refine ⟨_, hsucc hall, ?_, ?_⟩
    · simp only [Option.some.injEq]
      rw [List.filter_eq_nil_iff]
      intro a ha
      simp [hallrev a ha]
    · simp only [List.map_eq_nil_iff]
      rw [List.filter_eq_nil_iff]
      intro p hp
      simp [hallrev p.2 (List.of_mem_zip hp).2]

/-- Witness for C5: the hypotheses hold at the concrete two-band raster;
dropping both existing bands empties the band list and the band axis,
and dropping an unknown band fails with the assertion. -/
theorem c5_dropindices_spec_witness :
    (rC5.bands = some ["red", "green"] ∧
     (["red", "green"] : List String).length = rC5.data.bands.length ∧
     (∀ i (h : i < rC5.data.bands.length),
       (rC5.data.bands.get ⟨i, h⟩).coord = i + 1) ∧
     (["red", "green"] : List String).Nodup) ∧
    (∃ r2, rC5.dropindices ["red", "green"] = .ok r2 ∧
      r2.bands = some [] ∧ r2.data.bands = []) ∧
    rC5.dropindices ["blue"] =
      .error "AssertionError: Specified band not in raster." :=
  ⟨⟨rfl, rfl, by decide, by decide⟩,
   (c5_dropindices_spec rC5 ["red", "green"] ["red", "green"] rfl rfl
     (by decide) (by decide)).2.2 (by decide) (by decide),
   rfl⟩

/-- Claim C8 amended: construction with a filename fails when the path
does not exist and when the band list is None, recording the nodata
value from the file attrs on success; `readraster` fails when the file
cannot be opened but stores an absent band list without complaint. -/
theorem c8_load_spec (fs : XFS) (filename : String) (d : XData) (r : Raster)
    (bands : List String) (ob : Option (List String)) (cb cx cy : Nat) :
    (fs.lookup filename = none →
      Raster.fromFile fs filename (some bands) cb cx cy =
        .error "RuntimeError: filename does not exist" ∧
      Raster.readraster fs r filename ob cb cx cy =
        .error "RasterioIOError: cannot open file") ∧
    (fs.lookup filename = some d →
      Raster.fromFile fs filename none cb cx cy =
        .error "RuntimeError: Must specify band names.") ∧
    (fs.lookup filename = some d →
      Raster.fromFile fs filename (some bands) cb cx cy = .ok
        { data := d, bands := some bands, nodataval := d.nodatavals,
          chunks_band := cb, chunks_x := cx, chunks_y := cy }) ∧
    (fs.lookup filename = some d →
      Raster.readraster fs r filename ob cb cx cy = .ok { r with
        data := d, bands := ob, nodataval := d.nodatavals,
        chunks_band := cb, chunks_x := cx, chunks_y := cy }) := by
  refine ⟨fun h => ⟨?_, ?_⟩, fun h => ?_, fun h => ?_, fun h => ?_⟩ <;>
    simp [Raster.fromFile, Raster.readraster, openRasterio, h]

/-- Counterexample for C8 as stated: `readraster` succeeds although no
band-name list is supplied, storing None as the band list. -/
theorem c8_counterexample :
    ∃ r2, Raster.readraster xfsC8 rC8 "f.tif" none 1 2048 2048 = .ok r2 ∧
      r2.bands = none ∧ r2.nodataval = [-10000] :=
  ⟨_, rfl, rfl, rfl⟩

/-- Witness for C8: the lookup hypothesis holds at the concrete
filesystem, and construction without a band list fails there. -/
theorem c8_load_spec_witness :
    xfsC8.lookup "f.tif" = some xdC8 ∧
    Raster.fromFile xfsC8 "f.tif" none 1 2048 2048 =
      .error "RuntimeError: Must specify band names." :=
  ⟨rfl,
   (c8_load_spec xfsC8 "f.tif" xdC8 rC8 ["gray"] none 1 2048 2048).2.1 rfl⟩

/-- Helper: a successful `toraster` call computes the masked prediction
elementwise — a position is replaced by the nodata value exactly when
the cast reference mask is zero there (the substitution step) or already
equals the nodata value. -/
theorem toraster_ok (r : Raster) (rfs : RFS) (rast : String) (src : RFile)
    (prediction : List Int) (dtype : String) (output : String) (nd : Int)
    (tl : List Int) (hsrc : rfs.lookup rast = some src)
    (hnd : r.nodataval = nd :: tl)
    (hlen : prediction.length = src.mask.length) :
    r.toraster rfs rast prediction dtype output = .ok
      { prediction := (prediction.zip (src.mask.map (castDtype dtype))).map
          (fun p => if p.2 = 0 ∨ p.2 = nd then nd else p.1),
        out_path := output,
        out_meta := { src.profile with count := 1, dtype := dtype },
        out_data := ((prediction.zip (src.mask.map (castDtype dtype))).map
          (fun p => if p.2 = 0 ∨ p.2 = nd then nd else p.1)).map
            (castDtype dtype) } := by
  have hlen2 : prediction.length = ((src.mask.map (castDtype dtype)).map
      (fun m => if m = 0 then nd else m)).length := by
    simpa using hlen
  have hmain : (prediction.zip ((src.mask.map (castDtype dtype)).map
      (fun m => if m = 0 then nd else m))).map
        (fun p => if p.2 = nd then p.2 else p.1)
      = (prediction.zip (src.mask.map (castDtype dtype))).map
          (fun p => if p.2 = 0 ∨ p.2 = nd then nd else p.1) := by
    rw [List.zip_map_right, List.map_map]
    apply List.map_congr_left
    intro p _
    show (if (if p.2 = 0 then nd else p.2) = nd
          then (if p.2 = 0 then nd else p.2) else p.1)
        = (if p.2 = 0 ∨ p.2 = nd then nd else p.1)
    by_cases h0 : p.2 = 0
    · simp [h0]
    · by_cases h1 : p.2 = nd
      · simp [h0, h1]
      · simp [h0, h1]
  simp only [Raster.toraster, hsrc, hnd]
  rw [if_pos hlen2, hmain]

/-- Claim C7 amended: `toraster` fails when the reference raster cannot
be opened; otherwise it writes to the output path a single-band profile
of the requested dtype, and replaces prediction values with the nodata
value exactly where the substituted mask equals the nodata value — that
is, where the cast reference mask is zero or already equals the nodata
value; when the cast mask contains neither zeros nor the nodata value,
the written values are the prediction unchanged except for the dtype
cast. -/
theorem c7_toraster_spec :
    (∀ (r : Raster) (rfs : RFS) (rast : String) (prediction : List Int)
      (dtype output : String), rfs.lookup rast = none →
      r.toraster rfs rast prediction dtype output =
        .error "RasterioIOError: cannot open reference raster") ∧
    (∀ (r : Raster) (rfs : RFS) (rast : String) (src : RFile)
      (prediction : List Int) (dtype output : String) (nd : Int)
      (tl : List Int), rfs.lookup rast = some src → r.nodataval = nd :: tl →
      prediction.length = src.mask.length →
      ∃ res, r.toraster rfs rast prediction dtype output = .ok res ∧
        res.out_path = output ∧
        res.out_meta = { src.profile with count := 1, dtype := dtype } ∧
        res.out_data = res.prediction.map (castDtype dtype) ∧
        res.prediction = (prediction.zip (src.mask.map (castDtype dtype))).map
          (fun p => if p.2 = 0 ∨ p.2 = nd then nd else p.1) ∧
        ((∀ m ∈ src.mask.map (castDtype dtype), m ≠ 0 ∧ m ≠ nd) →
          res.prediction = prediction)) := by
  constructor
  · intro r rfs rast prediction dtype output h
    simp [Raster.toraster, h]
  · intro r rfs rast src prediction dtype output nd tl hsrc hnd hlen
    refine ⟨_, toraster_ok r rfs rast src prediction dtype output nd tl hsrc
      hnd hlen, rfl, rfl, rfl, rfl, ?_⟩
    intro hclean
    have h1 : ∀ p ∈ prediction.zip (src.mask.map (castDtype dtype)),
        (if p.2 = 0 ∨ p.2 = nd then nd else p.1) = p.1 := by
      intro p hp
      have h2 := hclean p.2 (List.of_mem_zip hp).2
      simp [h2.1, h2.2]
    show (prediction.zip (src.mask.map (castDtype dtype))).map
        (fun p => if p.2 = 0 ∨ p.2 = nd then nd else p.1) = prediction
    rw [List.map_congr_left h1]
    exact List.map_fst_zip _ _ (by simp [hlen])

/-- Counterexample for C7 as stated: with nodata value 5 and reference
mask [0, 5], the prediction is also replaced at position 1 although the
reference mask there is 5, not zero. -/
theorem c7_counterexample :
    ∃ res, rC7.toraster rfsC7 "ref.tif" [1, 2] "int32" "out.tif" = .ok res ∧
      res.prediction = [5, 5] ∧
      ([0, 5] : List Int).getD 1 0 ≠ 0 ∧
      res.prediction.getD 1 0 ≠ ([1, 2] : List Int).getD 1 0 :=
  ⟨_, rfl, rfl, by decide, by decide⟩

/-- Witness for C7: the hypotheses hold at the concrete raster,
reference file and prediction, and the conclusion follows by applying
the theorem there. -/
theorem c7_toraster_spec_witness :
    (rfsC7.lookup "ref.tif" = some { profile :=
        { count := 3, dtype := "uint8", georef := 17 }, mask := [0, 5] } ∧
     rC7.nodataval = 5 :: ([] : List Int) ∧
     ([1, 2] : List Int).length =
       ([0, 5] : List Int).length) ∧
    (∃ res, rC7.toraster rfsC7 "ref.tif" [1, 2] "int32" "out.tif" = .ok res ∧
      res.out_path = "out.tif" ∧
      res.out_meta = { ({ count := 3, dtype := "uint8", georef := 17 }
        : RProfile) with count := 1, dtype := "int32" } ∧
      res.out_data = res.prediction.map (castDtype "int32") ∧
      res.prediction = (([1, 2] : List Int).zip
        (([0, 5] : List Int).map (castDtype "int32"))).map
          (fun p => if p.2 = 0 ∨ p.2 = 5 then 5 else p.1) ∧
      ((∀ m ∈ ([0, 5] : List Int).map (castDtype "int32"),
        m ≠ 0 ∧ m ≠ 5) → res.prediction = [1, 2])) :=
  ⟨⟨rfl, rfl, rfl⟩,
   c7_toraster_spec.2 rC7 rfsC7 "ref.tif"
     { profile := { count := 3, dtype := "uint8", georef := 17 },
       mask := [0, 5] } [1, 2] "int32" "out.tif" 5 [] rfl rfl rfl⟩

/-- Claim C10 amended: `toraster` overwrites the caller's prediction
buffer with the nodata value at every position where the substituted
reference mask equals the nodata value, so the buffer differs after the
call whenever some such position previously held a value other than the
nodata value. -/
theorem c10_toraster_mutation (r : Raster) (rfs : RFS) (rast : String)
    (src : RFile) (prediction : List Int) (dtype : String) (output : String)
    (nd : Int) (tl : List Int) (hsrc : rfs.lookup rast = some src)
    (hnd : r.nodataval = nd :: tl)
    (hlen : prediction.length = src.mask.length) :
    ∃ res, r.toraster rfs rast prediction dtype output = .ok res ∧
      (∀ i m, (src.mask.map (castDtype dtype)).get? i = some m →
        (m = 0 ∨ m = nd) → res.prediction.get? i = some nd) ∧
      ((∃ i v m, prediction.get? i = some v ∧ v ≠ nd ∧
        (src.mask.map (castDtype dtype)).get? i = some m ∧ (m = 0 ∨ m = nd)) →
        res.prediction ≠ prediction) := by
  refine ⟨_, toraster_ok r rfs rast src prediction dtype output nd tl hsrc
    hnd hlen, ?_, ?_⟩
  · intro i m hm hcond
    have hi : i < (src.mask.map (castDtype dtype)).length := by
      obtain ⟨h, _⟩ := List.get?_eq_some.1 hm
      exact h
    have hip : i < prediction.length := by
      simp only [List.length_map] at hi
      omega
    have hv : prediction.get? i = some (prediction.get ⟨i, hip⟩) :=
      List.get?_eq_get hip
    have hz : (prediction.zip (src.mask.map (castDtype dtype))).get? i =
        some (prediction.get ⟨i, hip⟩, m) :=
      (List.get?_zip_eq_some _ _ _ _).2 ⟨hv, hm⟩
    show ((prediction.zip (src.mask.map (castDtype dtype))).map
      (fun p => if p.2 = 0 ∨ p.2 = nd then nd else p.1)).get? i = some nd
    rw [List.get?_map, hz]
    simp [hcond]
  · rintro ⟨i, v, m, hv, hvne, hm, hcond⟩
    intro heq
    have hi : i < (src.mask.map (castDtype dtype)).length := by
      obtain ⟨h, _⟩ := List.get?_eq_some.1 hm
      exact h
    have hip : i < prediction.length := by
      simp only [List.length_map] at hi
      omega
    have hz : (prediction.zip (src.mask.map (castDtype dtype))).get? i =
        some (v, m) :=
      (List.get?_zip_eq_some _ _ _ _).2 ⟨hv, hm⟩
    have hres : ((prediction.zip (src.mask.map (castDtype dtype))).map
        (fun p => if p.2 = 0 ∨ p.2 = nd then nd else p.1)).get? i = some nd := by
      rw [List.get?_map, hz]
      simp [hcond]
    have heq2 : (prediction.zip (src.mask.map (castDtype dtype))).map
        (fun p => if p.2 = 0 ∨ p.2 = nd then nd else p.1) = prediction := heq
    rw [heq2, hv] at hres
    exact hvne (Option.some.inj hres)

/-- Counterexample for C10 as stated: the reference mask contains a
zero, yet the caller's buffer is unchanged because the prediction
already held the nodata value there. -/
theorem c10_counterexample :
    ∃ res, rC10.toraster rfsC10 "ref.tif" [5] "int32" "out.tif" = .ok res ∧
      res.prediction = [5] ∧ (0 : Int) ∈ ([0] : List Int) :=
  ⟨_, rfl, rfl, by decide⟩

/-- Witness for C10: the hypotheses hold at a prediction holding 1
against a zero mask with nodata 5, and the theorem applies there. -/
theorem c10_toraster_mutation_witness :
    (rfsC10.lookup "ref.tif" = some { profile :=
        { count := 1, dtype := "uint8", georef := 4 }, mask := [0] } ∧
     rC10.nodataval = 5 :: ([] : List Int) ∧
     ([1] : List Int).length = ([0] : List Int).length) ∧
    (∃ res, rC10.toraster rfsC10 "ref.tif" [1] "int32" "out.tif" = .ok res ∧
      (∀ i m, (([0] : List Int).map (castDtype "int32")).get? i = some m →
        (m = 0 ∨ m = 5) → res.prediction.get? i = some 5) ∧
      ((∃ i v m, ([1] : List Int).get? i = some v ∧ v ≠ 5 ∧
        (([0] : List Int).map (castDtype "int32")).get? i = some m ∧
        (m = 0 ∨ m = 5)) → res.prediction ≠ [1])) :=
  ⟨⟨rfl, rfl, rfl⟩,
   c10_toraster_mutation rC10 rfsC10 "ref.tif"
     { profile := { count := 1, dtype := "uint8", georef := 4 }, mask := [0] }
     [1] "int32" "out.tif" 5 [] rfl rfl rfl⟩

/-- Claim C6 amended: construction fails immediately when `dataset_dir`
is None, with the filesystem untouched; when `generate_dataset=True` and
a glob pattern is None it also fails by assertion, but only after the
`images/` and `labels/` directories have been created — a filesystem
change precedes that failure. -/
theorem c6_init_errors (env : Env) (p : SegParams) (fs : DFS) :
    (p.dataset_dir = none → SegmentationDataset.init env p fs =
      .error ("AssertionError: dataset_dir should be defined.", fs)) ∧
    (∀ d, p.dataset_dir = some d → p.generate_dataset = true →
      p.images_regex = none → SegmentationDataset.init env p fs =
        .error ("AssertionError: images_regex should be defined with generate_dataset=True.",
          (fs.makedirs (d ++ "/images")).makedirs (d ++ "/labels"))) ∧
    (∀ d ireg, p.dataset_dir = some d → p.generate_dataset = true →
      p.images_regex = some ireg → p.labels_regex = none →
      SegmentationDataset.init env p fs =
        .error ("AssertionError: labels_regex should be defined with generate_dataset=True.",
          (fs.makedirs (d ++ "/images")).makedirs (d ++ "/labels"))) := by
  refine ⟨fun h => ?_, fun d hd hg hi => ?_, fun d ireg hd hg hi hl => ?_⟩
  · simp [SegmentationDataset.init, h]
  · simp [SegmentationDataset.init, hd, hg, hi]
  · simp [SegmentationDataset.init, hd, hg, hi, hl]

/-- Counterexample for C6 as stated: with generation requested and the
images pattern unset, construction fails, but the filesystem at the
failure already holds the two freshly created directories — an
observable change made before the failure is raised. -/
theorem c6_counterexample :
    SegmentationDataset.init envD pC6 fsC6 =
      .error ("AssertionError: images_regex should be defined with generate_dataset=True.",
        { dirs := ["d/images", "d/labels"], files := [] }) ∧
    ({ dirs := ["d/images", "d/labels"], files := [] } : DFS) ≠ fsC6 :=
  ⟨rfl, by decide⟩

/-- Witness for C6: the hypotheses of the second branch hold at the
concrete parameters, and the theorem applies there. -/
theorem c6_init_errors_witness :
    (pC6.dataset_dir = some "d" ∧ pC6.generate_dataset = true ∧
     pC6.images_regex = none) ∧
    SegmentationDataset.init envD pC6 fsC6 =
      .error ("AssertionError: images_regex should be defined with generate_dataset=True.",
        (fsC6.makedirs ("d" ++ "/images")).makedirs ("d" ++ "/labels")) :=
  ⟨⟨rfl, rfl, rfl⟩, (c6_init_errors envD pC6 fsC6).2.1 "d" rfl rfl rfl⟩

/-- Insertion keeps the length. -/
theorem insOne_length (s : String) (l : List String) :
    (insOne s l).length = l.length + 1 := by
  induction l with
  | nil => rfl
  | cons t ts ih =>
    rw [insOne]
    by_cases h : strLe s t = true <;> simp [h, ih]

/-- Sorting keeps the length. -/
theorem pysorted_length (l : List String) : (pysorted l).length = l.length := by
  induction l with
  | nil => rfl
  | cons x xs ih =>
    show (insOne x (pysorted xs)).length = xs.length + 1
    rw [insOne_length, ih]

/-- Claim C3: `gen_dataset` pairs image files with label files purely by
position after sorting each glob result independently: the processed
pairs are the positional zip of the two sorted lists, their count is the
minimum of the two glob counts (iteration stops at the shorter list,
silently dropping the rest), the pair at position k is just the two
k-th sorted entries with no filename comparison, and in the concrete
mismatched run the label tile written under image stem x2 silently
holds the contents of label scene x1. -/
theorem c3_gen_dataset_pairing :
    (∀ (env : Env) (s : SegmentationDataset) (fs : DFS),
      SegmentationDataset.gen_dataset env s fs =
        ((pysorted (env.glob s.images_regex)).zip
          (pysorted (env.glob s.labels_regex))).foldl (genScene env s) fs) ∧
    (∀ l1 l2 : List String,
      ((pysorted l1).zip (pysorted l2)).length = min l1.length l2.length) ∧
    (∀ (l1 l2 : List String) (k : Nat) (a b : String),
      (pysorted l1).get? k = some a → (pysorted l2).get? k = some b →
      ((pysorted l1).zip (pysorted l2)).get? k = some (a, b)) ∧
    (SegmentationDataset.gen_dataset envC3 sC3 fsC3 =
      { dirs := ["d/images", "d/labels"],
        files := [{ dir := "d/images", name := "x2_0.npy",
                    content := .a3 [[[1]]] },
                  { dir := "d/labels", name := "x2_0.npy",
                    content := .a2 [[7]] }] } ∧
     envC3.load_label "l/x1.tif" = [[7]] ∧
     envC3.load_label "l/x2.tif" = [[8]] ∧
     pathStem "i/x2.tif" ≠ pathStem "l/x1.tif") := by
  refine ⟨fun env s fs => rfl, fun l1 l2 => ?_, fun l1 l2 k a b ha hb => ?_,
    ?_, rfl, rfl, ?_⟩
  · rw [List.length_zip, pysorted_length, pysorted_length]
  · exact (List.get?_zip_eq_some _ _ _ _).2 ⟨ha, hb⟩
  · rfl
  · decide

/-- Witness for C3: a pair of concrete sorted glob results and the
positional pair the theorem yields at position 0. -/
theorem c3_gen_dataset_pairing_witness :
    (pysorted ["b", "a"]).get? 0 = some "a" ∧
    (pysorted ["c"]).get? 0 = some "c" ∧
    ((pysorted ["b", "a"]).zip (pysorted ["c"])).get? 0 = some ("a", "c") :=
  ⟨by decide, by decide,
   c3_gen_dataset_pairing.2.2.1 ["b", "a"] ["c"] 0 "a" "c" (by decide)
     (by decide)⟩

/-- Claim C9: for one positionally paired scene, `gen_dataset` persists
one image tile file and one label tile file per generated tile, both
named from the image stem and the tile index as `stem_i.npy`, image
tiles under the images directory and label tiles under the labels
directory with identical names, one file pair per tile; the number of
tile pairs equals `max_patches`, and the concrete five-patch run yields
exactly the five names x_0.npy .. x_4.npy in each directory. -/
theorem c9_tile_files :
    (∀ (env : Env) (s : SegmentationDataset) (fs : DFS) (img lbl : String),
      env.glob s.images_regex = [img] → env.glob s.labels_regex = [lbl] →
      SegmentationDataset.gen_dataset env s fs =
        (tilePairs env s img lbl).enum.foldl (fun fs2 t =>
          (fs2.save s.images_dir
            (pathStem img ++ "_" ++ toString t.1 ++ ".npy") (.a3 t.2.1)).save
            s.labels_dir
              (pathStem img ++ "_" ++ toString t.1 ++ ".npy") (.a2 t.2.2)) fs ∧
      (tilePairs env s img lbl).length = s.max_patches) ∧
    ((SegmentationDataset.gen_dataset envC9 sC9 fsC9).listdir "d/images" =
        ["x_0.npy", "x_1.npy", "x_2.npy", "x_3.npy", "x_4.npy"] ∧
     (SegmentationDataset.gen_dataset envC9 sC9 fsC9).listdir "d/labels" =
        ["x_0.npy", "x_1.npy", "x_2.npy", "x_3.npy", "x_4.npy"] ∧
     ((SegmentationDataset.gen_dataset envC9 sC9 fsC9).listdir
        "d/images").length = 5 ∧
     ((SegmentationDataset.gen_dataset envC9 sC9 fsC9).listdir
        "d/labels").length = 5) := by
  constructor
  · intro env s fs img lbl hg hl
    constructor
    · rw [SegmentationDataset.gen_dataset, hg, hl]
      rfl
    · simp [tilePairs, gen_random_tiles]
  · refine ⟨by decide, by decide, by decide, by decide⟩

/-- Witness for C9: the glob hypotheses hold at the concrete five-patch
environment, and the theorem applies there. -/
theorem c9_tile_files_witness :
    (envC9.glob sC9.images_regex = ["i/x.tif"] ∧
     envC9.glob sC9.labels_regex = ["l/x.tif"]) ∧
    (SegmentationDataset.gen_dataset envC9 sC9 fsC9 =
      (tilePairs envC9 sC9 "i/x.tif" "l/x.tif").enum.foldl (fun fs2 t =>
        (fs2.save sC9.images_dir
          (pathStem "i/x.tif" ++ "_" ++ toString t.1 ++ ".npy")
            (.a3 t.2.1)).save sC9.labels_dir
          (pathStem "i/x.tif" ++ "_" ++ toString t.1 ++ ".npy")
            (.a2 t.2.2)) fsC9 ∧
     (tilePairs envC9 sC9 "i/x.tif" "l/x.tif").length = sC9.max_patches) :=
  ⟨⟨rfl, rfl⟩, c9_tile_files.1 envC9 sC9 fsC9 "i/x.tif" "l/x.tif" rfl rfl⟩

/-- Claim C2 (code bug): on a successfully constructed dataset, `__len__`
does return the manifest length built from the images directory listing,
but `__getitem__` never loads a tile: `open_image` reads `self.files`,
an attribute `__init__` never assigns (it assigns `data_filenames`), so
every `__getitem__` call raises AttributeError instead of returning the
image and label tensors the claim describes. -/
theorem c2_getitem_files_bug :
    ∃ s fs2, SegmentationDataset.init envD pC2 fsC2 = .ok (s, fs2) ∧
      SegmentationDataset.len s = (fsC2.listdir "d/images").length ∧
      SegmentationDataset.len s = 1 ∧
      s.data_filenames = [("d/images/t_0.npy", "d/labels/t_0.npy")] ∧
      s.files = none ∧
      SegmentationDataset.getitem envD fs2 s 0 =
        .error "AttributeError: SegmentationDataset object has no attribute files" :=
  ⟨_, _, rfl, rfl, rfl, rfl, rfl, rfl⟩

end XRasterLib
